import Mathlib

/-!
# Verification of the plsql-performance-sample benchmarking and trend-analysis logic

Shallow embedding of `src/python/performance/benchmark.py`,
`src/python/analysis/trend_analyzer.py` and the backup-cleanup routine of
`src/python/automation/backup_automation.py`, with theorems settling the
frozen claims recorded for the specification of the repository.

Numeric modelling: Python floats are modelled as rationals (`ℚ`).  The only
irrational quantity the code produces is `statistics.stdev` / pandas `.std()`
(a square root); every claim touches that quantity only where it is `0` or
where the guard `len > 1` short-circuits it to the literal `0`, so the
embedding stores the *square* of the standard deviation (the sample
variance), under field names ending in `_sq`.  The value in the code is the square
root of the field, and is zero exactly when the field is zero.
-/

namespace Stats

/-- `statistics.mean` / pandas `.mean()`: sum divided by length.  In Python,
`statistics.mean` raises `StatisticsError` on an empty list; callers of this
definition model that raise explicitly at their call sites. -/
def mean (xs : List ℚ) : ℚ := xs.sum / xs.length

/-- Python built-in `min` over a nonempty list (Python raises on `[]`;
callers only reach this on nonempty input). -/
def pyMin : List ℚ → ℚ
  | [] => 0
  | x :: xs => xs.foldl min x

/-- Python built-in `max` over a nonempty list. -/
def pyMax : List ℚ → ℚ
  | [] => 0
  | x :: xs => xs.foldl max x

/-- Square of `statistics.stdev` (the sample variance, denominator `n - 1`).
Only meaningful for lists of length at least 2, which is how the source
guards every use (`if len(times) > 1 else 0`). -/
def svarSample (xs : List ℚ) : ℚ :=
  (xs.map (fun x => (x - mean xs) ^ 2)).sum / ((xs.length : ℚ) - 1)

/-- Insert into an ascending list, keeping equal elements in input order. -/
def insertAsc (x : ℚ) : List ℚ → List ℚ
  | [] => [x]
  | y :: ys => if x < y then x :: y :: ys else y :: insertAsc x ys

/-- Stable ascending sort of rational values (the sort pandas performs
internally when computing a quantile). -/
def sortVals : List ℚ → List ℚ
  | [] => []
  | x :: xs => insertAsc x (sortVals xs)

/-- pandas `Series.quantile(q)` with the default linear interpolation:
for sorted values `v_0 ≤ … ≤ v_(n-1)` and position `h = q·(n-1)`, the result
is `v_⌊h⌋ + (h - ⌊h⌋)·(v_(⌊h⌋+1) - v_⌊h⌋)`.  The out-of-range default `0`
of `getD` is only consulted when `⌊h⌋ + 1 = n`, in which case `h - ⌊h⌋ = 0`
and the second summand vanishes. -/
def quantile (q : ℚ) (xs : List ℚ) : ℚ :=
  let sv := sortVals xs
  let h : ℚ := q * ((xs.length : ℚ) - 1)
  let lo : ℕ := (Int.floor h).toNat
  sv.getD lo 0 + (h - (lo : ℚ)) * (sv.getD (lo + 1) 0 - sv.getD lo 0)

end Stats

namespace Benchmark

/-!
## `DatabaseBenchmark` (src/python/performance/benchmark.py)

The benchmarked query (respectively the caller-supplied transaction
function) is external to the program, so it is modelled as an oracle
`execOracle : ℕ → Except String ℚ`: the `i`-th execution of the body either
completes in `t` milliseconds (`.ok t`, the `(end-start)*1000` of the code) or
raises an exception with message `e` (`.error e`).
-/

/-- Result dictionary of `run_single_query_test` (the `query` echo field is
omitted: it is the unmodified input argument).  `std_dev_ms_sq` is the square
of the `std_dev_ms` of the code (see the file header). -/
structure QueryTestResult where
  iterations : ℕ
  avg_time_ms : ℚ
  min_time_ms : ℚ
  max_time_ms : ℚ
  std_dev_ms_sq : ℚ
  total_time_ms : ℚ
  error : Option String
  deriving DecidableEq, Repr

/-- The `except Exception` dictionary of `run_single_query_test`:
`iterations` is reset to `0` and every summary field is `0`. -/
def queryErrorResult (e : String) : QueryTestResult :=
  { iterations := 0, avg_time_ms := 0, min_time_ms := 0, max_time_ms := 0
    std_dev_ms_sq := 0, total_time_ms := 0, error := some e }

/-- The `for i in range(...)` timing loop: starting at execution index `i`,
perform `n` executions, collecting the `execution_times` list; the first
exception aborts the loop and propagates. -/
def collectFrom (execOracle : ℕ → Except String ℚ) (i : ℕ) : ℕ → Except String (List ℚ)
  | 0 => .ok []
  | n + 1 =>
    match execOracle i with
    | .error e => .error e
    | .ok t => (collectFrom execOracle (i + 1) n).map (t :: ·)

/-- Number of body executions the timing loop actually performs (observer for
"the query is never executed" / "aborts the loop"): it stops after the first
failing execution. -/
def callsFrom (execOracle : ℕ → Except String ℚ) (i : ℕ) : ℕ → ℕ
  | 0 => 0
  | n + 1 =>
    match execOracle i with
    | .error _ => 1
    | .ok _ => 1 + callsFrom execOracle (i + 1) n

/-- `DatabaseBenchmark.run_single_query_test(query, iterations)`.
On success the summary is computed from the collected times; `statistics.mean`
of an empty list raises `StatisticsError("mean requires at least one data
point")`, which the broad `except` turns into the error dictionary — hence
the explicit empty-list branch. -/
def run_single_query_test (execOracle : ℕ → Except String ℚ) (iterations : ℕ) :
    QueryTestResult :=
  match collectFrom execOracle 0 iterations with
  | .error e => queryErrorResult e
  | .ok times =>
    if times = [] then
      queryErrorResult "mean requires at least one data point"
    else
      { iterations := iterations
        avg_time_ms := Stats.mean times
        min_time_ms := Stats.pyMin times
        max_time_ms := Stats.pyMax times
        std_dev_ms_sq := if 1 < times.length then Stats.svarSample times else 0
        total_time_ms := times.sum
        error := none }

/-- Number of query executions performed by the whole
`run_single_query_test` timing loop. -/
def queryExecutions (execOracle : ℕ → Except String ℚ) (iterations : ℕ) : ℕ :=
  callsFrom execOracle 0 iterations

/-- Result dictionary of `run_transaction_test` (the constant
`test_type = custom_transaction` field is omitted).  Unlike
`run_single_query_test`, the error dictionary of this method echoes the
*requested* iteration count instead of resetting it to `0`. -/
structure TransactionTestResult where
  iterations : ℕ
  avg_time_ms : ℚ
  min_time_ms : ℚ
  max_time_ms : ℚ
  std_dev_ms_sq : ℚ
  total_time_ms : ℚ
  error : Option String
  deriving DecidableEq, Repr

/-- `DatabaseBenchmark.run_transaction_test(transaction_func, iterations)`:
the same timing loop over the caller-supplied callable. -/
def run_transaction_test (execOracle : ℕ → Except String ℚ) (iterations : ℕ) :
    TransactionTestResult :=
  match collectFrom execOracle 0 iterations with
  | .error e =>
    { iterations := iterations, avg_time_ms := 0, min_time_ms := 0
      max_time_ms := 0, std_dev_ms_sq := 0, total_time_ms := 0, error := some e }
  | .ok times =>
    if times = [] then
      { iterations := iterations, avg_time_ms := 0, min_time_ms := 0
        max_time_ms := 0, std_dev_ms_sq := 0, total_time_ms := 0
        error := some "mean requires at least one data point" }
    else
      { iterations := iterations
        avg_time_ms := Stats.mean times
        min_time_ms := Stats.pyMin times
        max_time_ms := Stats.pyMax times
        std_dev_ms_sq := if 1 < times.length then Stats.svarSample times else 0
        total_time_ms := times.sum
        error := none }

/-!
### `run_load_test`

`run_load_test(queries, duration_seconds)` computes
`end_time = start_time + duration_seconds` and then loops:

    while time.time() < end_time:
        for query in queries: execute it, tally query_counts[query] += 1

The wall clock is external, so it is modelled by `start : ℚ` (the initial
`time.time()`) and `checkClock : ℕ → ℚ`, the reading returned by the `k`-th
evaluation of the `while` condition.  Executions are numbered globally in
program order (one full pass over `queries` per loop cycle), and their
durations come from the same kind of oracle as above.  The unbounded `while`
is given explicit fuel; `none` means the loop has not terminated within the
fuel, which for a real monotone clock never happens.
-/

/-- Result dictionary of `run_load_test` (constant `test_type` omitted).
`query_counts` is the tally dictionary, modelled by its lookup function
(a key absent from the dictionary reads as `0`). -/
structure LoadTestResult where
  duration_seconds : ℚ
  total_queries : ℕ
  queries_per_second : ℚ
  avg_time_ms : ℚ
  min_time_ms : ℚ
  max_time_ms : ℚ
  std_dev_ms_sq : ℚ
  query_counts : String → ℕ
  error : Option String

/-- The `except Exception` dictionary of `run_load_test`: zero totals, zero
throughput, empty tally. -/
def loadErrorResult (duration : ℚ) (e : String) : LoadTestResult :=
  { duration_seconds := duration, total_queries := 0, queries_per_second := 0
    avg_time_ms := 0, min_time_ms := 0, max_time_ms := 0, std_dev_ms_sq := 0
    query_counts := fun _ => 0, error := some e }

/-- The `while time.time() < end_time` loop, checked at cycle index `k`:
returns the number of completed full cycles over the query list together
with the concatenated execution times, or the first exception.  `L` is
`len(queries)`, so cycle `k` performs executions `k*L, …, k*L + L - 1`. -/
def loadLoop (execOracle : ℕ → Except String ℚ) (L : ℕ) (checkClock : ℕ → ℚ)
    (endTime : ℚ) : ℕ → ℕ → Option (Except String (ℕ × List ℚ))
  | 0, _ => none
  | fuel + 1, k =>
    if checkClock k < endTime then
      match collectFrom execOracle (k * L) L with
      | .error e => some (.error e)
      | .ok ts =>
        (loadLoop execOracle L checkClock endTime fuel (k + 1)).map
          (·.map fun r => (r.1 + 1, ts ++ r.2))
    else
      some (.ok (0, []))

/-- `DatabaseBenchmark.run_load_test(queries, duration_seconds)`.
After the loop, `query_counts[q]` holds (completed cycles) × (occurrences of
`q` in `queries`), `total_queries = sum(query_counts.values())`, and
`queries_per_second = total_queries / duration_seconds` — evaluated in this
order, so `duration_seconds = 0` raises `ZeroDivisionError` before
`statistics.mean` can raise on an empty time list; both land in the error
dictionary via the broad `except`. -/
def run_load_test (execOracle : ℕ → Except String ℚ) (checkClock : ℕ → ℚ)
    (start duration : ℚ) (queries : List String) (fuel : ℕ) :
    Option LoadTestResult :=
  let L := queries.length
  match loadLoop execOracle L checkClock (start + duration) fuel 0 with
  | none => none
  | some (.error e) => some (loadErrorResult duration e)
  | some (.ok (cycles, times)) =>
    let counts : String → ℕ := fun q =>
      if q ∈ queries then cycles * queries.count q else 0
    let total : ℕ := (queries.dedup.map (fun q => cycles * queries.count q)).sum
    if duration = 0 then
      some (loadErrorResult duration "division by zero")
    else if times = [] then
      some (loadErrorResult duration "mean requires at least one data point")
    else
      some { duration_seconds := duration
             total_queries := total
             queries_per_second := (total : ℚ) / duration
             avg_time_ms := Stats.mean times
             min_time_ms := Stats.pyMin times
             max_time_ms := Stats.pyMax times
             std_dev_ms_sq := if 1 < times.length then Stats.svarSample times else 0
             query_counts := counts
             error := none }

end Benchmark

namespace Trend

/-!
## `TrendAnalyzer` (src/python/analysis/trend_analyzer.py)

A pandas `DataFrame` of performance samples is modelled as a rectangular row
list plus presence flags for the three metric columns the analyzer reads
(`performance_data.empty` is `rows = []`; a flag set to `false` models
a missing `<col>` entry of `performance_data.columns`).  Timestamps are epoch seconds.
-/

/-- One performance sample row. -/
structure PerfRow where
  ts : ℤ
  cpu : ℚ
  mem : ℚ
  disk : ℚ
  deriving DecidableEq, Repr

/-- A performance `DataFrame`. -/
structure PerfData where
  rows : List PerfRow
  hasCpu : Bool
  hasMem : Bool
  hasDisk : Bool
  deriving DecidableEq, Repr

/-- Insert a row into a timestamp-ascending list, before the first strictly
later row (stable: equal timestamps keep their input order). -/
def insertRow (x : PerfRow) : List PerfRow → List PerfRow
  | [] => [x]
  | y :: ys => if x.ts ≤ y.ts then x :: y :: ys else y :: insertRow x ys

/-- `data.sort_values` on the timestamp column: sort rows by timestamp ascending. -/
def sortRows : List PerfRow → List PerfRow
  | [] => []
  | x :: xs => insertRow x (sortRows xs)

/-- The metric column of the timestamp-sorted frame. -/
def sortedCol (pd : PerfData) (f : PerfRow → ℚ) : List ℚ :=
  (sortRows pd.rows).map f

/-- Last entry of `Series.rolling(window=w).mean()` as the returned
`moving_averages` entry: the code takes `iloc[-1]` when the rolling series
is not all-NaN (i.e. when at least `w` samples exist) and otherwise reports
`0`. -/
def maLast (w : ℕ) (vals : List ℚ) : ℚ :=
  if w ≤ vals.length then Stats.mean (vals.drop (vals.length - w)) else 0

/-- OLS slope of value against sample index `0..n-1`
(`LinearRegression().fit`): covariance over index variance, `0` for the
degenerate single-sample design (the minimum-norm solution of scikit-learn). -/
def olsSlope (vals : List ℚ) : ℚ :=
  let n := vals.length
  let xbar : ℚ := ((n : ℚ) - 1) / 2
  let ybar := Stats.mean vals
  let sxy := (vals.enum.map (fun p => ((p.1 : ℚ) - xbar) * (p.2 - ybar))).sum
  let sxx := (vals.enum.map (fun p => ((p.1 : ℚ) - xbar) ^ 2)).sum
  if sxx = 0 then 0 else sxy / sxx

/-- OLS intercept paired with `olsSlope`. -/
def olsIntercept (vals : List ℚ) : ℚ :=
  Stats.mean vals - olsSlope vals * (((vals.length : ℚ) - 1) / 2)

/-- `model.score(X, y)`: coefficient of determination
`1 - SS_res / SS_tot`; for a constant series `SS_tot = 0` and the fitted
line is exact (`SS_res = 0`), reported as `1`. -/
def olsRSquared (vals : List ℚ) : ℚ :=
  let ybar := Stats.mean vals
  let fit := fun (i : ℕ) => olsIntercept vals + olsSlope vals * i
  let ssRes := (vals.enum.map (fun p => (p.2 - fit p.1) ^ 2)).sum
  let ssTot := (vals.map (fun y => (y - ybar) ^ 2)).sum
  if ssTot = 0 then 1 else 1 - ssRes / ssTot

/-- The `anomalies` rows of `analyze_cpu_trends`: rows of the sorted frame
whose `cpu_percent` lies outside the Tukey fences
`[Q1 - 1.5·IQR, Q3 + 1.5·IQR]` built from the pandas quartiles. -/
def cpuAnomalies (pd : PerfData) : List PerfRow :=
  let vals := sortedCol pd (·.cpu)
  let q1 := Stats.quantile (1/4) vals
  let q3 := Stats.quantile (3/4) vals
  let iqr := q3 - q1
  (sortRows pd.rows).filter
    (fun r => decide (r.cpu < q1 - 3/2 * iqr ∨ q3 + 3/2 * iqr < r.cpu))

/-- Result dictionary of `analyze_cpu_trends`; `ma_5`/`ma_10` are the two
entries of the nested `moving_averages` dictionary. -/
structure CpuTrendResult where
  trend_slope : ℚ
  r_squared : ℚ
  current_avg : ℚ
  predicted_values : List ℚ
  anomalies : ℕ
  anomaly_percentage : ℚ
  ma_5 : ℚ
  ma_10 : ℚ
  deriving DecidableEq, Repr

/-- The result dictionary `analyze_cpu_trends` builds on its non-empty
path. -/
def mkCpuTrendResult (pd : PerfData) : CpuTrendResult :=
  let vals := sortedCol pd (·.cpu)
  let n := vals.length
  { trend_slope := olsSlope vals
    r_squared := olsRSquared vals
    current_avg := Stats.mean vals
    predicted_values :=
      (List.range 10).map (fun j => olsIntercept vals + olsSlope vals * ((n : ℚ) + j))
    anomalies := (cpuAnomalies pd).length
    anomaly_percentage := ((cpuAnomalies pd).length : ℚ) / (n : ℚ) * 100
    ma_5 := maLast 5 vals
    ma_10 := maLast 10 vals }

/-- `TrendAnalyzer.analyze_cpu_trends(performance_data)`; `none` is the
empty dictionary returned when the column is missing or the frame is empty. -/
def analyze_cpu_trends (pd : PerfData) : Option CpuTrendResult :=
  if pd.hasCpu && !pd.rows.isEmpty then some (mkCpuTrendResult pd) else none

/-- Result dictionary of `analyze_memory_trends`.  `peak_hours` is the list
of sample hours with usage above 80 (the code further tabulates its top-5
frequency counts, an ordering the claims never touch); `volatility_sq` is
the square of pandas `.std()`, `none` modelling the `NaN` that pandas
produces for a single sample. -/
structure MemoryTrendResult where
  growth_rate : ℚ
  current_usage : ℚ
  time_to_exhaustion : Option ℚ
  peak_hours : List ℤ
  avg_usage : ℚ
  max_usage : ℚ
  volatility_sq : Option ℚ
  deriving DecidableEq, Repr

/-- The growth-rate computation shared by the memory and disk analyses:
`(mean of second half - mean of first half) / mean of first half` when the
first-half mean is positive, else `0`.  The half-split follows the code:
`first = mean(vals[:n//2])`, `second = mean(vals[n//2:])`; for a single row
the first half is empty and pandas yields `NaN`, for which `NaN > 0` is
false — the `mean [] = 0` of the model takes the same `else 0` branch. -/
def halfGrowthRate (vals : List ℚ) : ℚ :=
  let firstHalf := Stats.mean (vals.take (vals.length / 2))
  let secondHalf := Stats.mean (vals.drop (vals.length / 2))
  if 0 < firstHalf then (secondHalf - firstHalf) / firstHalf else 0

/-- The exhaustion projection shared by the memory and disk analyses:
`(100 - current) / growth` when the growth rate is positive, else `None`. -/
def timeToThreshold (growth current : ℚ) : Option ℚ :=
  if 0 < growth then some ((100 - current) / growth) else none

/-- The result dictionary `analyze_memory_trends` builds on its non-empty
path. -/
def mkMemoryTrendResult (pd : PerfData) : MemoryTrendResult :=
  let vals := sortedCol pd (·.mem)
  { growth_rate := halfGrowthRate vals
    current_usage := vals.getLastD 0
    time_to_exhaustion := timeToThreshold (halfGrowthRate vals) (vals.getLastD 0)
    peak_hours :=
      ((sortRows pd.rows).filter (fun r => decide (80 < r.mem))).map
        (fun r => (r.ts.ediv 3600).emod 24)
    avg_usage := Stats.mean vals
    max_usage := Stats.pyMax vals
    volatility_sq :=
      if 2 ≤ vals.length then some (Stats.svarSample vals) else none }

/-- `TrendAnalyzer.analyze_memory_trends(performance_data)`. -/
def analyze_memory_trends (pd : PerfData) : Option MemoryTrendResult :=
  if pd.hasMem && !pd.rows.isEmpty then some (mkMemoryTrendResult pd) else none

/-- Result dictionary of `analyze_disk_trends`. -/
structure DiskTrendResult where
  growth_rate : ℚ
  current_usage : ℚ
  time_to_full : Option ℚ
  avg_usage : ℚ
  max_usage : ℚ
  trend_direction : String
  deriving DecidableEq, Repr

/-- The result dictionary `analyze_disk_trends` builds on its non-empty
path. -/
def mkDiskTrendResult (pd : PerfData) : DiskTrendResult :=
  let vals := sortedCol pd (·.disk)
  { growth_rate := halfGrowthRate vals
    current_usage := vals.getLastD 0
    time_to_full := timeToThreshold (halfGrowthRate vals) (vals.getLastD 0)
    avg_usage := Stats.mean vals
    max_usage := Stats.pyMax vals
    trend_direction :=
      if 0 < halfGrowthRate vals then "increasing"
      else if halfGrowthRate vals < 0 then "decreasing" else "stable" }

/-- `TrendAnalyzer.analyze_disk_trends(performance_data)`: same half-split
growth computation as the memory variant. -/
def analyze_disk_trends (pd : PerfData) : Option DiskTrendResult :=
  if pd.hasDisk && !pd.rows.isEmpty then some (mkDiskTrendResult pd) else none

/-- Python truthiness test `o and o < bound` on an optional float:
`None` is falsy, and so is the float `0.0`. -/
def truthyLt (o : Option ℚ) (bound : ℚ) : Bool :=
  match o with
  | none => false
  | some v => decide (v ≠ 0 ∧ v < bound)

/-- `TrendAnalyzer._assess_cpu_risk`.  In the typed model every field the
code reads via `.get(..., 0)` is present, so the `unknown` fallback of the broad
`except` is unreachable. -/
def assess_cpu_risk (t : CpuTrendResult) : String :=
  if 80 < t.current_avg ∨ 2 < t.trend_slope then "high"
  else if 60 < t.current_avg ∨ 1 < t.trend_slope then "medium"
  else "low"

/-- `TrendAnalyzer._assess_memory_risk`. -/
def assess_memory_risk (t : MemoryTrendResult) : String :=
  if 85 < t.current_usage ∨ truthyLt t.time_to_exhaustion 24 = true then "high"
  else if 70 < t.current_usage ∨ truthyLt t.time_to_exhaustion 72 = true then "medium"
  else "low"

/-- `TrendAnalyzer._assess_disk_risk`. -/
def assess_disk_risk (t : DiskTrendResult) : String :=
  if 90 < t.current_usage ∨ truthyLt t.time_to_full 24 = true then "high"
  else if 75 < t.current_usage ∨ truthyLt t.time_to_full 72 = true then "medium"
  else "low"

/-- The cpu sub-dictionary of `predictions`. -/
structure CpuPrediction where
  current_avg : ℚ
  predicted_avg : ℚ
  trend_slope : ℚ
  risk_level : String
  deriving DecidableEq, Repr

/-- The memory sub-dictionary of `predictions`. -/
structure MemoryPrediction where
  current_usage : ℚ
  predicted_usage : ℚ
  time_to_exhaustion : Option ℚ
  risk_level : String
  deriving DecidableEq, Repr

/-- The disk sub-dictionary of `predictions`. -/
structure DiskPrediction where
  current_usage : ℚ
  predicted_usage : ℚ
  time_to_full : Option ℚ
  risk_level : String
  deriving DecidableEq, Repr

/-- The `predictions` dictionary of `predict_future_performance`: each key
is present exactly when the corresponding trend analysis returned a
non-empty (truthy) dictionary. -/
structure Predictions where
  cpu : Option CpuPrediction
  memory : Option MemoryPrediction
  disk : Option DiskPrediction
  deriving DecidableEq, Repr

/-- The empty `predictions` dictionary `{}`. -/
def emptyPredictions : Predictions := ⟨none, none, none⟩

/-- `TrendAnalyzer.predict_future_performance(performance_data, days_ahead)`.
`predicted_avg` is `predicted_values[-1]` when that list is truthy and `0`
otherwise (`List.getLastD _ 0`); memory/disk `predicted_usage` is
`min(100, current + growth_rate * days_ahead)`. -/
def predict_future_performance (pd : PerfData) (days_ahead : ℕ) : Predictions :=
  if pd.rows.isEmpty then emptyPredictions
  else
    { cpu := (analyze_cpu_trends pd).map fun t =>
        { current_avg := t.current_avg
          predicted_avg := t.predicted_values.getLastD 0
          trend_slope := t.trend_slope
          risk_level := assess_cpu_risk t }
      memory := (analyze_memory_trends pd).map fun t =>
        { current_usage := t.current_usage
          predicted_usage := min 100 (t.current_usage + t.growth_rate * (days_ahead : ℚ))
          time_to_exhaustion := t.time_to_exhaustion
          risk_level := assess_memory_risk t }
      disk := (analyze_disk_trends pd).map fun t =>
        { current_usage := t.current_usage
          predicted_usage := min 100 (t.current_usage + t.growth_rate * (days_ahead : ℚ))
          time_to_full := t.time_to_full
          risk_level := assess_disk_risk t } }

end Trend

namespace Backup

/-!
## `DatabaseBackupAutomation._cleanup_old_backups`
(src/python/automation/backup_automation.py)

The backup directory is modelled as a list of entries, each carrying the two
filesystem timestamps the code and its tests disagree about:
`os.path.getctime` (inode change / creation time, what the code reads) and
`os.path.getmtime` (modification time, what the unit tests mock).  Times are
epoch seconds; `datetime.timedelta(days=d)` is `d * 86400` seconds.
-/

/-- One entry of `os.listdir(self.backup_dir)`. -/
structure DirEntry where
  name : String
  isDir : Bool
  ctime : ℤ
  mtime : ℤ
  deriving DecidableEq, Repr

/-- The result dictionary the unit tests (`test_cleanup_old_backups`)
expect from a cleanup call: the deleted names, the kept names and a
timestamp. -/
structure CleanupReport where
  deleted_backups : List String
  kept_backups : List String
  cleanup_date : ℤ
  deriving DecidableEq, Repr

/-- `DatabaseBackupAutomation._cleanup_old_backups()`.  The pair is
(directory contents after the call, Python return value): the loop removes
each directory entry whose `getctime` is strictly before
`now - retention_days` days and the method body ends without a `return`
statement, so the return value is `None` — modelled as the constant
`(none : Option CleanupReport)`. -/
def cleanup_old_backups (entries : List DirEntry) (now : ℤ)
    (retention_days : ℤ) : List DirEntry × Option CleanupReport :=
  let cutoff := now - retention_days * 86400
  (entries.filter (fun d => !(d.isDir && decide (d.ctime < cutoff))), none)

end Backup

/-!
## Concrete example inputs used by the witnesses and evaluation theorems
-/

/-- Three CPU samples — fewer than the 5-point window. -/
def c1SamplePd : Trend.PerfData :=
  { rows := [⟨0, 10, 0, 0⟩, ⟨1, 20, 0, 0⟩, ⟨2, 30, 0, 0⟩]
    hasCpu := true, hasMem := false, hasDisk := false }

/-- The execution oracle of the C4 witness: the second execution raises. -/
def c4Exec : ℕ → Except String ℚ :=
  fun j => if j = 1 then .error "boom" else .ok 2

/-- Ten typical CPU samples around 50 plus one extreme outlier of 500. -/
def c5SamplePd : Trend.PerfData :=
  { rows := [⟨0, 48, 0, 0⟩, ⟨1, 49, 0, 0⟩, ⟨2, 50, 0, 0⟩, ⟨3, 51, 0, 0⟩,
             ⟨4, 52, 0, 0⟩, ⟨5, 47, 0, 0⟩, ⟨6, 53, 0, 0⟩, ⟨7, 50, 0, 0⟩,
             ⟨8, 49, 0, 0⟩, ⟨9, 51, 0, 0⟩, ⟨10, 500, 0, 0⟩]
    hasCpu := true, hasMem := false, hasDisk := false }

/-- The outlier sample of `c5SamplePd`. -/
def c5OutlierRow : Trend.PerfRow := ⟨10, 500, 0, 0⟩

/-- Four memory/disk samples whose second-half mean doubles the first-half
mean. -/
def c6SamplePd : Trend.PerfData :=
  { rows := [⟨0, 0, 10, 10⟩, ⟨1, 0, 10, 10⟩, ⟨2, 0, 20, 20⟩, ⟨3, 0, 20, 20⟩]
    hasCpu := false, hasMem := true, hasDisk := true }

/-- The wall clock of the C7 witness: the three `while`-condition readings
are 0 s, 6 s and 12 s. -/
def c7Clock : ℕ → ℚ := fun k => if k = 0 then 0 else if k = 1 then 6 else 12

/-- The execution oracle of the C10 witness: the first transaction raises. -/
def c10Exec : ℕ → Except String ℚ :=
  fun j => if j = 0 then .error "Transaction failed" else .ok 3

/-- A backup directory whose modification time is 10 days old but whose
change/creation time is 1 second old (the scenario of the unit test
`test_cleanup_old_backups`, which mocks `os.path.getmtime`). -/
def c2StaleByMtime : Backup.DirEntry :=
  { name := "backup1", isDir := true, ctime := -1, mtime := -864000 }

/-- A backup directory whose change/creation time is 10 days old but whose
modification time is 1 second old. -/
def c2StaleByCtime : Backup.DirEntry :=
  { name := "backup2", isDir := true, ctime := -864000, mtime := -1 }

/-!
## Theorems
-/

theorem Stats.mem_insertAsc (x y : ℚ) (l : List ℚ) :
    y ∈ Stats.insertAsc x l ↔ y = x ∨ y ∈ l := by
  induction l with
  | nil => simp [Stats.insertAsc]
  | cons a as ih =>
    by_cases h : x < a
    · simp [Stats.insertAsc, h]
    · simp [Stats.insertAsc, h, ih]
      tauto

theorem Stats.mem_sortVals (y : ℚ) (l : List ℚ) :
    y ∈ Stats.sortVals l ↔ y ∈ l := by
  induction l with
  | nil => simp [Stats.sortVals]
  | cons a as ih => simp [Stats.sortVals, Stats.mem_insertAsc, ih]

/-- C3: with `iterations = 0`, `run_single_query_test` returns a result with
`iterations = 0` and every summary field `0`, performs no execution of the
query, and the result does not depend on the query behaviour at all. -/
theorem c3_zero_iterations_all_zero
    (execOracle execOracle2 : ℕ → Except String ℚ) :
    (Benchmark.run_single_query_test execOracle 0).iterations = 0 ∧
    (Benchmark.run_single_query_test execOracle 0).avg_time_ms = 0 ∧
    (Benchmark.run_single_query_test execOracle 0).min_time_ms = 0 ∧
    (Benchmark.run_single_query_test execOracle 0).max_time_ms = 0 ∧
    (Benchmark.run_single_query_test execOracle 0).std_dev_ms_sq = 0 ∧
    (Benchmark.run_single_query_test execOracle 0).total_time_ms = 0 ∧
    Benchmark.queryExecutions execOracle 0 = 0 ∧
    Benchmark.run_single_query_test execOracle 0 =
      Benchmark.run_single_query_test execOracle2 0 :=
  ⟨rfl, rfl, rfl, rfl, rfl, rfl, rfl, rfl⟩

/-- C9: with `iterations = 1` and a successful execution taking `t` ms,
`run_single_query_test` reports `avg = min = max = t` and a zero standard
deviation. -/
theorem c9_single_iteration_degenerate_summary
    (execOracle : ℕ → Except String ℚ) (t : ℚ) (h : execOracle 0 = .ok t) :
    (Benchmark.run_single_query_test execOracle 1).iterations = 1 ∧
    (Benchmark.run_single_query_test execOracle 1).avg_time_ms = t ∧
    (Benchmark.run_single_query_test execOracle 1).min_time_ms = t ∧
    (Benchmark.run_single_query_test execOracle 1).max_time_ms = t ∧
    (Benchmark.run_single_query_test execOracle 1).std_dev_ms_sq = 0 ∧
    (Benchmark.run_single_query_test execOracle 1).error = none := by
  have hc : Benchmark.collectFrom execOracle 0 1 = .ok [t] := by
    simp [Benchmark.collectFrom, h, Except.map]
  simp [Benchmark.run_single_query_test, hc, Stats.mean, Stats.pyMin, Stats.pyMax]

/-- Witness for C9 at the concrete oracle that always takes 5 ms. -/
theorem c9_witness :
    (Benchmark.run_single_query_test (fun _ => .ok 5) 1).iterations = 1 ∧
    (Benchmark.run_single_query_test (fun _ => .ok 5) 1).avg_time_ms = 5 ∧
    (Benchmark.run_single_query_test (fun _ => .ok 5) 1).min_time_ms = 5 ∧
    (Benchmark.run_single_query_test (fun _ => .ok 5) 1).max_time_ms = 5 ∧
    (Benchmark.run_single_query_test (fun _ => .ok 5) 1).std_dev_ms_sq = 0 ∧
    (Benchmark.run_single_query_test (fun _ => .ok 5) 1).error = none :=
  c9_single_iteration_degenerate_summary (fun _ => .ok 5) 5 rfl

/-- If the `k`-th execution after offset `i` is the first to raise, the
timing loop propagates that exception. -/
theorem Benchmark.collectFrom_error (execOracle : ℕ → Except String ℚ)
    (e : String) :
    ∀ (k n i : ℕ), k < n → execOracle (i + k) = .error e →
      (∀ j, j < k → ∃ t, execOracle (i + j) = .ok t) →
      Benchmark.collectFrom execOracle i n = .error e := by
  intro k
  induction k with
  | zero =>
    intro n i hn hf _
    cases n with
    | zero => omega
    | succ m =>
      rw [Nat.add_zero] at hf
      simp [Benchmark.collectFrom, hf]
  | succ k ih =>
    intro n i hn hf hok
    cases n with
    | zero => omega
    | succ m =>
      obtain ⟨t, ht⟩ := hok 0 (Nat.succ_pos k)
      rw [Nat.add_zero] at ht
      have hrec : Benchmark.collectFrom execOracle (i + 1) m = .error e := by
        refine ih m (i + 1) (by omega) ?_ ?_
        · rw [show i + 1 + k = i + (k + 1) by omega]
          exact hf
        · intro j hj
          obtain ⟨u, hu⟩ := hok (j + 1) (by omega)
          exact ⟨u, by rw [show i + 1 + j = i + (j + 1) by omega]; exact hu⟩
      simp [Benchmark.collectFrom, ht, hrec, Except.map]

/-- The loop body runs exactly `k + 1` times when the `k`-th execution after
offset `i` is the first to raise. -/
theorem Benchmark.callsFrom_error (execOracle : ℕ → Except String ℚ)
    (e : String) :
    ∀ (k n i : ℕ), k < n → execOracle (i + k) = .error e →
      (∀ j, j < k → ∃ t, execOracle (i + j) = .ok t) →
      Benchmark.callsFrom execOracle i n = k + 1 := by
  intro k
  induction k with
  | zero =>
    intro n i hn hf _
    cases n with
    | zero => omega
    | succ m =>
      rw [Nat.add_zero] at hf
      simp [Benchmark.callsFrom, hf]
  | succ k ih =>
    intro n i hn hf hok
    cases n with
    | zero => omega
    | succ m =>
      obtain ⟨t, ht⟩ := hok 0 (Nat.succ_pos k)
      rw [Nat.add_zero] at ht
      have hrec : Benchmark.callsFrom execOracle (i + 1) m = k + 1 := by
        refine ih m (i + 1) (by omega) ?_ ?_
        · rw [show i + 1 + k = i + (k + 1) by omega]
          exact hf
        · intro j hj
          obtain ⟨u, hu⟩ := hok (j + 1) (by omega)
          exact ⟨u, by rw [show i + 1 + j = i + (j + 1) by omega]; exact hu⟩
      simp [Benchmark.callsFrom, ht, hrec]
      omega

/-- C4: if the `i`-th execution of the query is the first to raise (with
message `e`), `run_single_query_test` stops the loop right there and returns
the error dictionary: `iterations = 0`, `error = e`, all summary fields
zero. -/
theorem c4_exception_aborts_with_error_result
    (execOracle : ℕ → Except String ℚ) (n i : ℕ) (e : String)
    (hin : i < n) (hfail : execOracle i = .error e)
    (hok : ∀ j, j < i → ∃ t, execOracle j = .ok t) :
    Benchmark.run_single_query_test execOracle n = Benchmark.queryErrorResult e ∧
    (Benchmark.run_single_query_test execOracle n).iterations = 0 ∧
    (Benchmark.run_single_query_test execOracle n).error = some e ∧
    (Benchmark.run_single_query_test execOracle n).avg_time_ms = 0 ∧
    (Benchmark.run_single_query_test execOracle n).min_time_ms = 0 ∧
    (Benchmark.run_single_query_test execOracle n).max_time_ms = 0 ∧
    (Benchmark.run_single_query_test execOracle n).std_dev_ms_sq = 0 ∧
    (Benchmark.run_single_query_test execOracle n).total_time_ms = 0 ∧
    Benchmark.queryExecutions execOracle n = i + 1 := by
  have hcf : Benchmark.collectFrom execOracle 0 n = .error e := by
    refine Benchmark.collectFrom_error execOracle e i n 0 hin ?_ ?_
    · rw [Nat.zero_add]; exact hfail
    · intro j hj
      obtain ⟨t, ht⟩ := hok j hj
      exact ⟨t, by rw [Nat.zero_add]; exact ht⟩
  have hcalls : Benchmark.callsFrom execOracle 0 n = i + 1 := by
    refine Benchmark.callsFrom_error execOracle e i n 0 hin ?_ ?_
    · rw [Nat.zero_add]; exact hfail
    · intro j hj
      obtain ⟨t, ht⟩ := hok j hj
      exact ⟨t, by rw [Nat.zero_add]; exact ht⟩
  refine ⟨?_, ?_, ?_, ?_, ?_, ?_, ?_, ?_, hcalls⟩ <;>
    simp [Benchmark.run_single_query_test, hcf, Benchmark.queryErrorResult]

/-- Witness for C4: three requested iterations, the second execution raises
`boom`. -/
theorem c4_witness :
    (1 < 3 ∧ c4Exec 1 = .error "boom") ∧
    Benchmark.run_single_query_test c4Exec 3 = Benchmark.queryErrorResult "boom" ∧
    (Benchmark.run_single_query_test c4Exec 3).iterations = 0 ∧
    (Benchmark.run_single_query_test c4Exec 3).error = some "boom" ∧
    (Benchmark.run_single_query_test c4Exec 3).avg_time_ms = 0 ∧
    (Benchmark.run_single_query_test c4Exec 3).min_time_ms = 0 ∧
    (Benchmark.run_single_query_test c4Exec 3).max_time_ms = 0 ∧
    (Benchmark.run_single_query_test c4Exec 3).std_dev_ms_sq = 0 ∧
    (Benchmark.run_single_query_test c4Exec 3).total_time_ms = 0 ∧
    Benchmark.queryExecutions c4Exec 3 = 2 :=
  ⟨⟨by omega, rfl⟩,
    c4_exception_aborts_with_error_result c4Exec 3 1 "boom" (by omega) rfl
      (fun j hj => ⟨2, by have hz : j = 0 := by omega
                          subst hz; rfl⟩)⟩

/-- C10: if a transaction execution is the first to raise (message `e`),
`run_transaction_test` returns the error dictionary that echoes the
*requested* iteration count — unlike `run_single_query_test`, whose error
dictionary resets `iterations` to `0` in the same situation. -/
theorem c10_transaction_error_echoes_requested_iterations
    (execOracle : ℕ → Except String ℚ) (n i : ℕ) (e : String)
    (hin : i < n) (hfail : execOracle i = .error e)
    (hok : ∀ j, j < i → ∃ t, execOracle j = .ok t) :
    (Benchmark.run_transaction_test execOracle n).iterations = n ∧
    (Benchmark.run_transaction_test execOracle n).error = some e ∧
    (Benchmark.run_transaction_test execOracle n).avg_time_ms = 0 ∧
    (Benchmark.run_transaction_test execOracle n).min_time_ms = 0 ∧
    (Benchmark.run_transaction_test execOracle n).max_time_ms = 0 ∧
    (Benchmark.run_transaction_test execOracle n).std_dev_ms_sq = 0 ∧
    (Benchmark.run_transaction_test execOracle n).total_time_ms = 0 ∧
    (Benchmark.run_single_query_test execOracle n).iterations = 0 := by
  have hcf : Benchmark.collectFrom execOracle 0 n = .error e := by
    refine Benchmark.collectFrom_error execOracle e i n 0 hin ?_ ?_
    · rw [Nat.zero_add]; exact hfail
    · intro j hj
      obtain ⟨t, ht⟩ := hok j hj
      exact ⟨t, by rw [Nat.zero_add]; exact ht⟩
  refine ⟨?_, ?_, ?_, ?_, ?_, ?_, ?_, ?_⟩ <;>
    simp [Benchmark.run_transaction_test, Benchmark.run_single_query_test,
      hcf, Benchmark.queryErrorResult]

/-- Witness for C10: two requested iterations, the first transaction raises
`Transaction failed`. -/
theorem c10_witness :
    (0 < 2 ∧ c10Exec 0 = .error "Transaction failed") ∧
    (Benchmark.run_transaction_test c10Exec 2).iterations = 2 ∧
    (Benchmark.run_transaction_test c10Exec 2).error = some "Transaction failed" ∧
    (Benchmark.run_transaction_test c10Exec 2).avg_time_ms = 0 ∧
    (Benchmark.run_transaction_test c10Exec 2).min_time_ms = 0 ∧
    (Benchmark.run_transaction_test c10Exec 2).max_time_ms = 0 ∧
    (Benchmark.run_transaction_test c10Exec 2).std_dev_ms_sq = 0 ∧
    (Benchmark.run_transaction_test c10Exec 2).total_time_ms = 0 ∧
    (Benchmark.run_single_query_test c10Exec 2).iterations = 0 :=
  ⟨⟨by omega, rfl⟩,
    c10_transaction_error_echoes_requested_iterations c10Exec 2 0
      "Transaction failed" (by omega) rfl (fun j hj => absurd hj (by omega))⟩

/-- If every execution in the window `[i, i + n)` succeeds, the timing loop
collects exactly `n` times. -/
theorem Benchmark.collectFrom_ok (execOracle : ℕ → Except String ℚ) :
    ∀ (n i : ℕ), (∀ j, i ≤ j → j < i + n → ∃ t, execOracle j = .ok t) →
      ∃ ts : List ℚ, Benchmark.collectFrom execOracle i n = .ok ts ∧
        ts.length = n := by
  intro n
  induction n with
  | zero => intro i _; exact ⟨[], rfl, rfl⟩
  | succ m ih =>
    intro i hok
    obtain ⟨t, ht⟩ := hok i (le_refl i) (by omega)
    obtain ⟨ts, hts, hlen⟩ := ih (i + 1) (fun j h1 h2 => hok j (by omega) (by omega))
    exact ⟨t :: ts, by simp [Benchmark.collectFrom, ht, hts, Except.map], by
      simp [hlen]⟩

/-- If the clock stays below `endTime` for exactly `C` cycle checks starting
at check `k` and every execution of those cycles succeeds, the load loop
completes `C` cycles and collects `C * L` times. -/
theorem Benchmark.loadLoop_ok (execOracle : ℕ → Except String ℚ) (L : ℕ)
    (checkClock : ℕ → ℚ) (endTime : ℚ) :
    ∀ (C fuel k : ℕ), C < fuel →
      (∀ j, k ≤ j → j < k + C → checkClock j < endTime) →
      ¬ checkClock (k + C) < endTime →
      (∀ j, k * L ≤ j → j < (k + C) * L → ∃ t, execOracle j = .ok t) →
      ∃ ts : List ℚ,
        Benchmark.loadLoop execOracle L checkClock endTime fuel k =
          some (.ok (C, ts)) ∧ ts.length = C * L := by
  intro C
  induction C with
  | zero =>
    intro fuel k hfuel _ hstop _
    cases fuel with
    | zero => omega
    | succ f =>
      rw [Nat.add_zero] at hstop
      exact ⟨[], by simp [Benchmark.loadLoop, hstop], by simp⟩
  | succ c ih =>
    intro fuel k hfuel hcont hstop hexec
    cases fuel with
    | zero => omega
    | succ f =>
      have hck : checkClock k < endTime := hcont k (le_refl k) (by omega)
      obtain ⟨ts0, hts0, hlen0⟩ :=
        Benchmark.collectFrom_ok execOracle L (k * L)
          (fun j h1 h2 => hexec j h1 (by
            have e1 : k * L + L = (k + 1) * L := (Nat.succ_mul k L).symm
            have e2 : (k + 1) * L ≤ (k + (c + 1)) * L :=
              Nat.mul_le_mul_right L (by omega)
            omega))
      obtain ⟨ts1, hts1, hlen1⟩ := ih f (k + 1) (by omega)
        (fun j h1 h2 => hcont j (by omega) (by omega))
        (by rw [show k + 1 + c = k + (c + 1) by omega]; exact hstop)
        (fun j h1 h2 => hexec j (by
            have : k * L ≤ (k + 1) * L := Nat.mul_le_mul_right L (by omega)
            omega)
          (by rw [show k + 1 + c = k + (c + 1) by omega] at h2; exact h2))
      refine ⟨ts0 ++ ts1, ?_, ?_⟩
      · simp [Benchmark.loadLoop, hck, hts0, hts1, Except.map]
      · simp [hlen0, hlen1, Nat.succ_mul, Nat.add_comm]

/-- C7: when the clock admits exactly `C > 0` full passes over a non-empty
query list within the duration window and every execution succeeds,
`run_load_test` tallies `C × (occurrences in the list)` executions per
query, reports `total_queries = C * len(queries)` and throughput
`queries_per_second = total_queries / duration_seconds`, with no error. -/
theorem c7_load_test_cycles_and_throughput
    (execOracle : ℕ → Except String ℚ) (checkClock : ℕ → ℚ)
    (start duration : ℚ) (queries : List String) (C fuel : ℕ)
    (hdur : 0 < duration) (hq : queries ≠ []) (hC : 0 < C) (hfuel : C < fuel)
    (hcont : ∀ j, j < C → checkClock j < start + duration)
    (hstop : ¬ checkClock C < start + duration)
    (hexec : ∀ j, j < C * queries.length → ∃ t, execOracle j = .ok t) :
    ∃ r, Benchmark.run_load_test execOracle checkClock start duration queries
        fuel = some r ∧
      r.total_queries = C * queries.length ∧
      r.queries_per_second = (C * queries.length : ℕ) / duration ∧
      (∀ q, r.query_counts q =
        if q ∈ queries then C * queries.count q else 0) ∧
      r.error = none := by
  obtain ⟨ts, hloop, hlen⟩ :=
    Benchmark.loadLoop_ok execOracle queries.length checkClock
      (start + duration) C fuel 0 hfuel
      (fun j h1 h2 => hcont j (by omega))
      (by rw [Nat.zero_add]; exact hstop)
      (fun j h1 h2 => hexec j (by rw [Nat.zero_add] at h2; exact h2))
  have hL : 0 < queries.length := List.length_pos.mpr hq
  have htotal : (queries.dedup.map
      (fun q => C * queries.count q)).sum = C * queries.length := by
    rw [show (fun q => C * queries.count q) =
        (fun q => C * (fun x => queries.count x) q) from rfl]
    rw [List.sum_map_mul_left, List.sum_map_count_dedup_eq_length]
  have hts : ts ≠ [] := by
    intro hnil
    rw [hnil] at hlen
    simp at hlen
    rcases hlen with h | h
    · omega
    · exact hq h
  have hdz : duration ≠ 0 := ne_of_gt hdur
  have hrun : Benchmark.run_load_test execOracle checkClock start duration
      queries fuel =
      some { duration_seconds := duration
             total_queries := (queries.dedup.map (fun q => C * queries.count q)).sum
             queries_per_second :=
               (((queries.dedup.map (fun q => C * queries.count q)).sum : ℕ) : ℚ) /
                 duration
             avg_time_ms := Stats.mean ts
             min_time_ms := Stats.pyMin ts
             max_time_ms := Stats.pyMax ts
             std_dev_ms_sq := if 1 < ts.length then Stats.svarSample ts else 0
             query_counts := fun q => if q ∈ queries then C * queries.count q else 0
             error := none } := by
    simp only [Benchmark.run_load_test]
    rw [hloop]
    simp [hdz, hts]
  refine ⟨_, hrun, ?_, ?_, fun q => rfl, rfl⟩
  · simpa using htotal
  · simp only [htotal]

/-- Witness for C7: two queries, duration 10 s, clock readings `0, 6, 12`,
every execution taking 1 ms: two full cycles, four queries total,
throughput `4 / 10`. -/
theorem c7_witness :
    ((0 : ℚ) < 10 ∧ (["a", "b"] : List String) ≠ [] ∧ 0 < 2 ∧ 2 < 3) ∧
    ∃ r, Benchmark.run_load_test (fun _ => .ok 1)
        c7Clock 0 10 ["a", "b"] 3 = some r ∧
      r.total_queries = 2 * (["a", "b"] : List String).length ∧
      r.queries_per_second =
        ((2 * (["a", "b"] : List String).length : ℕ) : ℚ) / 10 ∧
      (∀ q, r.query_counts q =
        if q ∈ (["a", "b"] : List String) then
          2 * (["a", "b"] : List String).count q else 0) ∧
      r.error = none :=
  ⟨⟨by norm_num, by simp, by omega, by omega⟩,
    c7_load_test_cycles_and_throughput (fun _ => .ok 1)
      c7Clock 0 10 ["a", "b"] 2 3
      (by norm_num) (by simp) (by omega) (by omega)
      (by intro j hj
          interval_cases j <;> norm_num [c7Clock])
      (by norm_num [c7Clock]) (fun j _ => ⟨1, rfl⟩)⟩

/-- C8: every trend-analysis function returns the empty dictionary on an
empty input frame, and on a frame lacking the relevant numeric column
(`predict_future_performance` reads all three columns, so it is empty when
the frame is empty or when all three are missing). -/
theorem c8_empty_input_gives_empty_result (pd : Trend.PerfData) (days : ℕ) :
    (pd.rows = [] →
      Trend.analyze_cpu_trends pd = none ∧
      Trend.analyze_memory_trends pd = none ∧
      Trend.analyze_disk_trends pd = none ∧
      Trend.predict_future_performance pd days = Trend.emptyPredictions) ∧
    (pd.hasCpu = false → Trend.analyze_cpu_trends pd = none) ∧
    (pd.hasMem = false → Trend.analyze_memory_trends pd = none) ∧
    (pd.hasDisk = false → Trend.analyze_disk_trends pd = none) ∧
    (pd.hasCpu = false → pd.hasMem = false → pd.hasDisk = false →
      Trend.predict_future_performance pd days = Trend.emptyPredictions) := by
  refine ⟨?_, ?_, ?_, ?_, ?_⟩
  · intro h
    refine ⟨?_, ?_, ?_, ?_⟩ <;>
      simp [Trend.analyze_cpu_trends, Trend.analyze_memory_trends,
        Trend.analyze_disk_trends, Trend.predict_future_performance, h]
  · intro h; simp [Trend.analyze_cpu_trends, h]
  · intro h; simp [Trend.analyze_memory_trends, h]
  · intro h; simp [Trend.analyze_disk_trends, h]
  · intro h1 h2 h3
    by_cases hr : pd.rows.isEmpty <;>
      simp [Trend.predict_future_performance, Trend.analyze_cpu_trends,
        Trend.analyze_memory_trends, Trend.analyze_disk_trends,
        Trend.emptyPredictions, h1, h2, h3, hr]

/-- Witness for C8: the empty frame with all columns, and a one-row frame
with no metric columns. -/
theorem c8_witness :
    (Trend.analyze_cpu_trends ⟨[], true, true, true⟩ = none ∧
     Trend.analyze_memory_trends ⟨[], true, true, true⟩ = none ∧
     Trend.analyze_disk_trends ⟨[], true, true, true⟩ = none ∧
     Trend.predict_future_performance ⟨[], true, true, true⟩ 7 =
       Trend.emptyPredictions) ∧
    Trend.analyze_cpu_trends ⟨[⟨0, 1, 2, 3⟩], false, false, false⟩ = none ∧
    Trend.predict_future_performance ⟨[⟨0, 1, 2, 3⟩], false, false, false⟩ 7 =
      Trend.emptyPredictions :=
  ⟨(c8_empty_input_gives_empty_result ⟨[], true, true, true⟩ 7).1 rfl,
    (c8_empty_input_gives_empty_result ⟨[⟨0, 1, 2, 3⟩], false, false, false⟩ 7).2.1 rfl,
    (c8_empty_input_gives_empty_result
      ⟨[⟨0, 1, 2, 3⟩], false, false, false⟩ 7).2.2.2.2 rfl rfl rfl⟩

/-- C6: for a non-empty memory/disk series (of nonnegative first-half mean,
as percentages are), the returned growth rate is
`(mean of second half - mean of first half) / mean of first half`, is `0`
when the first-half mean is `0`, and the projected time to the 100 %
threshold is `(100 - current) / growth`, defined exactly when the growth
rate is positive. -/
theorem c6_growth_rate_and_time_to_threshold (pd : Trend.PerfData)
    (hmem : pd.hasMem = true) (hdisk : pd.hasDisk = true)
    (hne : pd.rows ≠ [])
    (hm1 : 0 ≤ Stats.mean ((Trend.sortedCol pd (·.mem)).take
      ((Trend.sortedCol pd (·.mem)).length / 2)))
    (hd1 : 0 ≤ Stats.mean ((Trend.sortedCol pd (·.disk)).take
      ((Trend.sortedCol pd (·.disk)).length / 2))) :
    ∃ rm rd, Trend.analyze_memory_trends pd = some rm ∧
      Trend.analyze_disk_trends pd = some rd ∧
      rm.current_usage = (Trend.sortedCol pd (·.mem)).getLastD 0 ∧
      (Stats.mean ((Trend.sortedCol pd (·.mem)).take
          ((Trend.sortedCol pd (·.mem)).length / 2)) ≠ 0 →
        rm.growth_rate =
          (Stats.mean ((Trend.sortedCol pd (·.mem)).drop
              ((Trend.sortedCol pd (·.mem)).length / 2)) -
            Stats.mean ((Trend.sortedCol pd (·.mem)).take
              ((Trend.sortedCol pd (·.mem)).length / 2))) /
          Stats.mean ((Trend.sortedCol pd (·.mem)).take
            ((Trend.sortedCol pd (·.mem)).length / 2))) ∧
      (Stats.mean ((Trend.sortedCol pd (·.mem)).take
          ((Trend.sortedCol pd (·.mem)).length / 2)) = 0 →
        rm.growth_rate = 0) ∧
      (0 < rm.growth_rate →
        rm.time_to_exhaustion = some ((100 - rm.current_usage) / rm.growth_rate)) ∧
      (rm.time_to_exhaustion ≠ none ↔ 0 < rm.growth_rate) ∧
      rd.current_usage = (Trend.sortedCol pd (·.disk)).getLastD 0 ∧
      (Stats.mean ((Trend.sortedCol pd (·.disk)).take
          ((Trend.sortedCol pd (·.disk)).length / 2)) ≠ 0 →
        rd.growth_rate =
          (Stats.mean ((Trend.sortedCol pd (·.disk)).drop
              ((Trend.sortedCol pd (·.disk)).length / 2)) -
            Stats.mean ((Trend.sortedCol pd (·.disk)).take
              ((Trend.sortedCol pd (·.disk)).length / 2))) /
          Stats.mean ((Trend.sortedCol pd (·.disk)).take
            ((Trend.sortedCol pd (·.disk)).length / 2))) ∧
      (Stats.mean ((Trend.sortedCol pd (·.disk)).take
          ((Trend.sortedCol pd (·.disk)).length / 2)) = 0 →
        rd.growth_rate = 0) ∧
      (0 < rd.growth_rate →
        rd.time_to_full = some ((100 - rd.current_usage) / rd.growth_rate)) ∧
      (rd.time_to_full ≠ none ↔ 0 < rd.growth_rate) := by
  refine ⟨Trend.mkMemoryTrendResult pd, Trend.mkDiskTrendResult pd, ?_, ?_,
    rfl, ?_, ?_, ?_, ?_, rfl, ?_, ?_, ?_, ?_⟩
  · simp [Trend.analyze_memory_trends, hmem, hne]
  · simp [Trend.analyze_disk_trends, hdisk, hne]
  · intro h
    simp only [Trend.mkMemoryTrendResult, Trend.halfGrowthRate]
    rw [if_pos (lt_of_le_of_ne hm1 (Ne.symm h))]
  · intro h
    simp only [Trend.mkMemoryTrendResult, Trend.halfGrowthRate]
    rw [h, if_neg (lt_irrefl 0)]
  · intro h
    simp only [Trend.mkMemoryTrendResult, Trend.timeToThreshold] at h ⊢
    rw [if_pos h]
  · simp only [Trend.mkMemoryTrendResult, Trend.timeToThreshold]
    split_ifs with h <;> simp [h]
  · intro h
    simp only [Trend.mkDiskTrendResult, Trend.halfGrowthRate]
    rw [if_pos (lt_of_le_of_ne hd1 (Ne.symm h))]
  · intro h
    simp only [Trend.mkDiskTrendResult, Trend.halfGrowthRate]
    rw [h, if_neg (lt_irrefl 0)]
  · intro h
    simp only [Trend.mkDiskTrendResult, Trend.timeToThreshold] at h ⊢
    rw [if_pos h]
  · simp only [Trend.mkDiskTrendResult, Trend.timeToThreshold]
    split_ifs with h <;> simp [h]

/-- Witness for C6: four samples whose memory/disk usage doubles from the
first half to the second. -/
theorem c6_witness :
    ∃ rm rd, Trend.analyze_memory_trends c6SamplePd = some rm ∧
      Trend.analyze_disk_trends c6SamplePd = some rd ∧
      rm.current_usage = (Trend.sortedCol c6SamplePd (·.mem)).getLastD 0 ∧
      (Stats.mean ((Trend.sortedCol c6SamplePd (·.mem)).take
          ((Trend.sortedCol c6SamplePd (·.mem)).length / 2)) ≠ 0 →
        rm.growth_rate =
          (Stats.mean ((Trend.sortedCol c6SamplePd (·.mem)).drop
              ((Trend.sortedCol c6SamplePd (·.mem)).length / 2)) -
            Stats.mean ((Trend.sortedCol c6SamplePd (·.mem)).take
              ((Trend.sortedCol c6SamplePd (·.mem)).length / 2))) /
          Stats.mean ((Trend.sortedCol c6SamplePd (·.mem)).take
            ((Trend.sortedCol c6SamplePd (·.mem)).length / 2))) ∧
      (Stats.mean ((Trend.sortedCol c6SamplePd (·.mem)).take
          ((Trend.sortedCol c6SamplePd (·.mem)).length / 2)) = 0 →
        rm.growth_rate = 0) ∧
      (0 < rm.growth_rate →
        rm.time_to_exhaustion = some ((100 - rm.current_usage) / rm.growth_rate)) ∧
      (rm.time_to_exhaustion ≠ none ↔ 0 < rm.growth_rate) ∧
      rd.current_usage = (Trend.sortedCol c6SamplePd (·.disk)).getLastD 0 ∧
      (Stats.mean ((Trend.sortedCol c6SamplePd (·.disk)).take
          ((Trend.sortedCol c6SamplePd (·.disk)).length / 2)) ≠ 0 →
        rd.growth_rate =
          (Stats.mean ((Trend.sortedCol c6SamplePd (·.disk)).drop
              ((Trend.sortedCol c6SamplePd (·.disk)).length / 2)) -
            Stats.mean ((Trend.sortedCol c6SamplePd (·.disk)).take
              ((Trend.sortedCol c6SamplePd (·.disk)).length / 2))) /
          Stats.mean ((Trend.sortedCol c6SamplePd (·.disk)).take
            ((Trend.sortedCol c6SamplePd (·.disk)).length / 2))) ∧
      (Stats.mean ((Trend.sortedCol c6SamplePd (·.disk)).take
          ((Trend.sortedCol c6SamplePd (·.disk)).length / 2)) = 0 →
        rd.growth_rate = 0) ∧
      (0 < rd.growth_rate →
        rd.time_to_full = some ((100 - rd.current_usage) / rd.growth_rate)) ∧
      (rd.time_to_full ≠ none ↔ 0 < rd.growth_rate) :=
  c6_growth_rate_and_time_to_threshold c6SamplePd rfl rfl (by decide)
    (by norm_num [Trend.sortedCol, Trend.sortRows, Trend.insertRow,
      Stats.mean, c6SamplePd])
    (by norm_num [Trend.sortedCol, Trend.sortRows, Trend.insertRow,
      Stats.mean, c6SamplePd])

/-- C5: a sample of the analyzed series is flagged anomalous if and only if
its CPU value falls below `Q1 - 1.5*IQR` or above `Q3 + 1.5*IQR`, where
`Q1`/`Q3` are the 25th/75th percentiles of the series and `IQR = Q3 - Q1`;
the returned `anomalies` count is the number of flagged samples. -/
theorem c5_tukey_anomaly_rule (pd : Trend.PerfData) (x : Trend.PerfRow)
    (hc : pd.hasCpu = true) (hne : pd.rows ≠ [])
    (hx : x ∈ Trend.sortRows pd.rows) :
    (x ∈ Trend.cpuAnomalies pd ↔
      (x.cpu < Stats.quantile (1/4) (Trend.sortedCol pd (·.cpu)) -
          3/2 * (Stats.quantile (3/4) (Trend.sortedCol pd (·.cpu)) -
            Stats.quantile (1/4) (Trend.sortedCol pd (·.cpu))) ∨
        Stats.quantile (3/4) (Trend.sortedCol pd (·.cpu)) +
          3/2 * (Stats.quantile (3/4) (Trend.sortedCol pd (·.cpu)) -
            Stats.quantile (1/4) (Trend.sortedCol pd (·.cpu))) < x.cpu)) ∧
    (Trend.analyze_cpu_trends pd).map (·.anomalies) =
      some (Trend.cpuAnomalies pd).length := by
  constructor
  · simp only [Trend.cpuAnomalies, List.mem_filter, decide_eq_true_eq]
    simp [hx]
  · simp [Trend.analyze_cpu_trends, hc, hne, Trend.mkCpuTrendResult]

/-- Witness for C5: ten typical samples around 50 plus one outlier of 500 —
the outlier is flagged (via the theorem) and nothing else is (the anomaly
list is exactly the outlier row). -/
theorem c5_witness :
    (c5OutlierRow ∈ Trend.cpuAnomalies c5SamplePd ↔
      (c5OutlierRow.cpu <
          Stats.quantile (1/4) (Trend.sortedCol c5SamplePd (·.cpu)) -
          3/2 * (Stats.quantile (3/4) (Trend.sortedCol c5SamplePd (·.cpu)) -
            Stats.quantile (1/4) (Trend.sortedCol c5SamplePd (·.cpu))) ∨
        Stats.quantile (3/4) (Trend.sortedCol c5SamplePd (·.cpu)) +
          3/2 * (Stats.quantile (3/4) (Trend.sortedCol c5SamplePd (·.cpu)) -
            Stats.quantile (1/4) (Trend.sortedCol c5SamplePd (·.cpu))) <
          c5OutlierRow.cpu)) ∧
    Trend.cpuAnomalies c5SamplePd = [c5OutlierRow] := by
  have hsort : Trend.sortRows c5SamplePd.rows = c5SamplePd.rows := by decide
  have hvals : Trend.sortedCol c5SamplePd (·.cpu) =
      [48, 49, 50, 51, 52, 47, 53, 50, 49, 51, 500] := by
    rw [Trend.sortedCol, hsort]
    simp [c5SamplePd]
  have hq1 : Stats.quantile (1/4)
      ([48, 49, 50, 51, 52, 47, 53, 50, 49, 51, 500] : List ℚ) = 49 := by
    unfold Stats.quantile
    norm_num [Stats.sortVals, Stats.insertAsc, Int.toNat]
  have hq3 : Stats.quantile (3/4)
      ([48, 49, 50, 51, 52, 47, 53, 50, 49, 51, 500] : List ℚ) = 103/2 := by
    unfold Stats.quantile
    norm_num [Stats.sortVals, Stats.insertAsc, Int.toNat]
  have hanom : Trend.cpuAnomalies c5SamplePd = [c5OutlierRow] := by
    simp only [Trend.cpuAnomalies, hvals, hq1, hq3, hsort]
    norm_num [c5SamplePd, c5OutlierRow, List.filter]
  exact ⟨(c5_tukey_anomaly_rule c5SamplePd c5OutlierRow rfl (by decide)
    (by rw [hsort]; decide)).1, hanom⟩

/-- C1: code behaviour at the failing input — with only three samples
(fewer than either window), `analyze_cpu_trends` still returns moving
averages, with the value `0`, instead of omitting them as the claim (and
the unit test `test_analyze_cpu_trends_insufficient_data`, which expects an
empty `moving_averages` dictionary) states. -/
theorem c1_insufficient_window_reports_zero :
    (Trend.analyze_cpu_trends c1SamplePd).map (fun r => (r.ma_5, r.ma_10)) =
      some (0, 0) := by
  have hvals : Trend.sortedCol c1SamplePd (·.cpu) = [10, 20, 30] := by
    rw [Trend.sortedCol,
      show Trend.sortRows c1SamplePd.rows = c1SamplePd.rows from by decide]
    simp [c1SamplePd]
  have hguard : (c1SamplePd.hasCpu && !c1SamplePd.rows.isEmpty) = true := by
    decide
  simp only [Trend.analyze_cpu_trends, hguard, if_true, Option.map_some']
  simp only [Trend.mkCpuTrendResult, hvals]
  norm_num [Trend.maLast]

/-- C2: code behaviour at the failing input — `_cleanup_old_backups` with a
7-day retention keeps the directory whose modification time is 10 days old
(its change/creation time is recent, and the code keys on `getctime`),
deletes the directory whose change/creation time is 10 days old even though
its modification time is recent, and returns `None` rather than any
dictionary listing deleted and kept backups. -/
theorem c2_cleanup_keys_on_ctime_and_returns_none :
    Backup.cleanup_old_backups [c2StaleByMtime, c2StaleByCtime] 0 7 =
      ([c2StaleByMtime], none) := by decide
